import Mathlib

/-!
Verification of the repyhelper translation pipeline (repyhelper.py).

The Python source is shallowly embedded: file contents are modelled as lists
of newline-terminated lines, the filesystem as a pair of partial maps (files
and directories), fallible operations return Except values, and the I/O
failures that the source catches as IOError are driven by an explicit oracle.
String primitives used by the source (startswith, rstrip, strip, slicing,
replace of a single character) are re-implemented over the character list of
the string so that every definition evaluates by kernel reduction.
-/

namespace Repyhelper

/-- Python str.startswith: pyStartswith s t is true when t is an initial
segment of s. -/
def leadMatch : List Char → List Char → Bool
  | [], _ => true
  | _ :: _, [] => false
  | a :: as, b :: bs => a = b && leadMatch as bs

def pyStartswith (s t : String) : Bool :=
  leadMatch t.data s.data

/-- Python str.rstrip(): remove trailing whitespace. -/
def pyRstrip (s : String) : String :=
  String.mk ((s.data.reverse.dropWhile Char.isWhitespace).reverse)

/-- Python str.strip(): remove leading and trailing whitespace. -/
def pyStrip (s : String) : String :=
  String.mk (((s.data.dropWhile Char.isWhitespace).reverse.dropWhile Char.isWhitespace).reverse)

/-- Python slicing s[n:] by character index. -/
def pyDrop (s : String) (n : Nat) : String :=
  String.mk (s.data.drop n)

/-- Python len(s) in characters. -/
def pyLen (s : String) : Nat :=
  s.data.length

/-- Python str.replace applied with the single-character pattern and
replacement used by the source (replacing each dot with an underscore). -/
def pyReplaceChar (s : String) (old new : Char) : String :=
  String.mk (s.data.map (fun c => if c = old then new else c))

/-- Python repr of a string that contains no quotes or escapes (the source
assumes callfunc and callargs are plain strings). -/
def pyRepr (s : String) : String :=
  "\x27" ++ s ++ "\x27"

/-- Python repr of a list of plain strings. -/
def pyReprStrList (xs : List String) : String :=
  "[" ++ String.intercalate ", " (xs.map pyRepr) ++ "]"

abbrev Path := String

/-- os.path.split for POSIX paths: break at the last slash; the head keeps
its trailing slashes only when it consists solely of slashes. -/
def pySplitPath (p : String) : String × String :=
  let cs := p.data
  let tl := (cs.reverse.takeWhile (fun c => c ≠ '/')).reverse
  if tl.length = cs.length then
    ("", p)
  else
    let headAll := cs.take (cs.length - tl.length)
    let headStripped := (headAll.reverse.dropWhile (fun c => c = '/')).reverse
    let hd := if headStripped.isEmpty then headAll else headStripped
    (String.mk hd, String.mk tl)

/-- os.path.basename. -/
def pyBasename (p : String) : String :=
  (pySplitPath p).2

/-- os.path.dirname. -/
def pyDirname (p : String) : String :=
  (pySplitPath p).1

/-- Test whether the last character of a string is the given character. -/
def lastCharIs (s : String) (c : Char) : Bool :=
  match s.data.getLast? with
  | some d => d = c
  | none => false

/-- os.path.join for the two-argument uses in the source. -/
def joinPath (a b : String) : String :=
  if a = "" then b
  else if pyStartswith b "/" then b
  else if lastCharIs a '/' then a ++ b
  else a ++ "/" ++ b

/-- os.path.abspath, relative to an explicit current working directory; path
normalization beyond prepending the cwd is not modelled. -/
def abspath (cwd p : String) : String :=
  if pyStartswith p "/" then p else joinPath cwd p

/-- A file on disk: its content as newline-terminated lines (stored without
the terminator) and its modification time. -/
structure FileData where
  lines : List String
  mtime : Int
deriving DecidableEq, Repr

/-- The filesystem: a partial map from paths to file data plus a directory
predicate. -/
structure FS where
  files : Path → Option FileData
  dirs : Path → Bool

/-- Overwrite (or delete, with none) the file stored at a path. -/
def FS.setFile (fs : FS) (p : Path) (d : Option FileData) : FS :=
  { fs with files := fun q => if q = p then d else fs.files q }

/-- Record a directory as existing (os.makedirs). -/
def FS.addDir (fs : FS) (p : Path) : FS :=
  { fs with dirs := fun q => if q = p then true else fs.dirs q }

/-- The filesystem operations the embedded code performs; stat and read are
observations, the remaining constructors mutate. -/
inductive FSOp where
  | statOp (p : Path)
  | readOp (p : Path)
  | writeOp (p : Path) (d : FileData)
  | removeOp (p : Path)
  | mkdirOp (p : Path)
deriving DecidableEq, Repr

/-- An operation is read-only when it neither creates, writes nor deletes. -/
def FSOp.readonly : FSOp → Bool
  | .statOp _ => true
  | .readOp _ => true
  | _ => false

/-- Effect of one operation on the filesystem. -/
def FSOp.apply (fs : FS) : FSOp → FS
  | .statOp _ => fs
  | .readOp _ => fs
  | .writeOp p d => fs.setFile p (some d)
  | .removeOp p => fs.setFile p none
  | .mkdirOp p => fs.addDir p

/-- Effect of a sequence of operations. -/
def applyOps (fs : FS) : List FSOp → FS
  | [] => fs
  | op :: ops => applyOps (op.apply fs) ops

/-- The error kinds raised by the source: TranslationError plus the built-in
TypeError and ValueError. -/
inductive TError where
  | translationError (msg : String)
  | typeError (msg : String)
  | valueError (msg : String)
deriving DecidableEq, Repr

def TRANSLATION_TAGLINE : String :=
  "### Automatically generated by repyhelper.py ###"

def ENCODING_STRING : String :=
  "# -*- coding: utf-8 -*-"

/-- WARNING_LABEL as the lines the print statement emits: the triple-quoted
string opens with a newline, ends with a blank line, and print appends one
more newline. -/
def WARNING_LABEL_LINES : List String :=
  ["",
   "### THIS FILE WILL BE OVERWRITTEN!",
   "### DO NOT MAKE CHANGES HERE, INSTEAD EDIT THE ORIGINAL SOURCE FILE",
   "###",
   "### If changes to the src aren\x27t propagating here, try manually deleting this file. ",
   "### Deleting this file forces regeneration of a repy translation",
   "",
   ""]

/-- Module-level shared_context: modelled as a reference (heap address) into
an explicit heap of dictionaries, so that identity of the mapping instance is
expressible. -/
structure RHState where
  shared_context : Nat
deriving DecidableEq, Repr

/-- get_shared_context returns the module-level shared_context. -/
def get_shared_context (st : RHState) : Nat :=
  st.shared_context

/-- set_shared_context: TypeError when the argument is None, otherwise the
module-level shared_context is replaced. -/
def set_shared_context (st : RHState) (context : Option Nat) : Except TError RHState :=
  match context with
  | none => Except.error (TError.typeError "Context can\x27t be none")
  | some c => Except.ok { st with shared_context := c }

/-- A Python argument as far as set_importcachedir inspects it: None, a
string, or a value of any other type. -/
inductive PyArg where
  | pyNone
  | pyStr (s : String)
  | pyOther
deriving DecidableEq, Repr

/-- set_importcachedir: returns the new value of the module-level
_importcachedir override (ok none means cleared). None clears; a non-string
is a TypeError; an empty string is normalized to the dot directory; a
non-directory is a TypeError; a directory not on sys.path is a ValueError. -/
def set_importcachedir (fs : FS) (syspath : List Path) (newimportcachedir : PyArg) :
    Except TError (Option Path) :=
  match newimportcachedir with
  | PyArg.pyNone => Except.ok none
  | PyArg.pyOther =>
    Except.error (TError.typeError "Type of newimportcachedir is not a string")
  | PyArg.pyStr s0 =>
    let s := if s0 = "" then "." else s0
    if !(fs.dirs s) then
      Except.error (TError.typeError
        ("Path given for newimportcachedir \x27" ++ s ++ "\x27 is not a directory"))
    else if s ∉ syspath then
      Except.error (TError.valueError
        ("The import cache dir \x27" ++ s ++ "\x27 isn\x27t in the Python path"))
    else
      Except.ok (some s)

/-- _get_module_name: replace every dot of the basename with an underscore,
keeping the directory part. -/
def _get_module_name (repyfilename : String) : String :=
  let hd := (pySplitPath repyfilename).1
  let tl := pyReplaceChar (pySplitPath repyfilename).2 '.' '_'
  joinPath hd tl

/-- _translation_is_needed: decides whether generatedfile must be
regenerated from repyfilename. Returns the decision (or the raised error)
together with the list of filesystem operations performed, in order. -/
def _translation_is_needed (fs : FS) (cwd : Path) (repyfilename generatedfile : Path) :
    Except TError Bool × List FSOp :=
  match fs.files repyfilename with
  | none =>
    (Except.error (TError.translationError ("no such file:" ++ repyfilename)),
     [FSOp.statOp repyfilename])
  | some repydata =>
    match fs.files generatedfile with
    | none =>
      (Except.ok true, [FSOp.statOp repyfilename, FSOp.statOp generatedfile])
    | some gendata =>
      let baseOps := [FSOp.statOp repyfilename, FSOp.statOp generatedfile,
                      FSOp.readOp generatedfile]
      let first_line := pyRstrip (gendata.lines.headD "")
      let second_line := pyRstrip ((gendata.lines.drop 1).headD "")
      let last_line := (gendata.lines.drop 2).getLastD ""
      if (!(pyStartswith first_line ENCODING_STRING) ||
          !(pyStartswith second_line TRANSLATION_TAGLINE)) &&
         !(pyStartswith first_line TRANSLATION_TAGLINE) then
        (Except.error (TError.translationError
          ("File name exists but wasn\x27t automatically generated: " ++ generatedfile)),
         baseOps)
      else if !(pyStartswith last_line TRANSLATION_TAGLINE) then
        (Except.ok true, baseOps)
      else
        let old_translation_path := pyStrip (pyDrop first_line (pyLen TRANSLATION_TAGLINE))
        let generated_abs_path := abspath cwd repyfilename
        if old_translation_path ≠ generated_abs_path then
          (Except.ok true, baseOps)
        else
          let finalOps := baseOps ++ [FSOp.statOp repyfilename, FSOp.statOp generatedfile]
          if repydata.mtime < gendata.mtime then
            (Except.ok false, finalOps)
          else
            (Except.ok true, finalOps)

/-- Switches selecting which of the IOError sites that the source guards
against actually fire during a generation run. -/
structure IOOracle where
  openOutFails : Bool
  writeFails : Bool
  readSrcFails : Bool
  removeFails : Bool
deriving DecidableEq, Repr

def IOOracle.clean : IOOracle :=
  { openOutFails := false, writeFails := false, readSrcFails := false, removeFails := false }

/-- The body loop of _process_output_file: a line led by the include keyword
and a space becomes a recursive translate_and_import call on the stripped
remainder; every other line is copied through unchanged. (The source also
computes an unused modulename for include lines.) -/
def _process_output_lines : List String → List String
  | [] => []
  | line :: rest =>
    (if pyStartswith line "include " then
      let includename := pyStrip (pyDrop line (pyLen "include "))
      "repyhelper.translate_and_import(\x27" ++ includename ++ "\x27)"
    else
      line) :: _process_output_lines rest

/-- The header lines of a generated artifact, as printed before the body:
encoding marker, tagline with absolute source path, warning block, the three
bootstrap imports, the mycontext binding, callfunc, callargs, and a blank
line. -/
def headerLines (cwd repyfilename : Path) (shared_mycontext : Bool)
    (callfunc : String) (callargs : List String) : List String :=
  [ENCODING_STRING,
   TRANSLATION_TAGLINE ++ " " ++ abspath cwd repyfilename] ++
  WARNING_LABEL_LINES ++
  ["from repyportability import *",
   "from repyportability import _context",
   "import repyhelper",
   (if shared_mycontext then
     "mycontext = repyhelper.get_shared_context()"
   else
     "mycontext = \x7b\x7d"),
   "callfunc = " ++ pyRepr callfunc,
   "callargs = " ++ pyReprStrList callargs,
   ""]

/-- The complete content of a successfully generated artifact: header,
translated body, blank line, trailing tagline. -/
def generatedContent (cwd repyfilename : Path) (srcLines : List String)
    (shared_mycontext : Bool) (callfunc : String) (callargs : List String) : List String :=
  headerLines cwd repyfilename shared_mycontext callfunc callargs ++
  _process_output_lines srcLines ++
  ["", TRANSLATION_TAGLINE ++ " " ++ abspath cwd repyfilename]

/-- _process_output_file: read the source and return the translated body
lines. If the source cannot be opened or read, remove the partial artifact
written so far (swallowing a failure of the removal itself) and raise a
TranslationError. hdrWritten is the content already written to the open
artifact when the failure strikes. -/
def _process_output_file (fs : FS) (oracle : IOOracle) (filename generatedfilename : Path)
    (hdrWritten : List String) (now : Int) : Except TError (List String) × FS :=
  match fs.files filename, oracle.readSrcFails with
  | some src, false => (Except.ok (_process_output_lines src.lines), fs)
  | _, _ =>
    if oracle.removeFails then
      (Except.error (TError.translationError ("Error opening " ++ filename ++ ": IOError")),
       fs.setFile generatedfilename (some { lines := hdrWritten, mtime := now }))
    else
      (Except.error (TError.translationError ("Error opening " ++ filename ++ ": IOError")),
       fs.setFile generatedfilename none)

/-- _generate_python_file_from_repy: create the parent directory when
missing, open the artifact for writing (truncating), write header, body and
trailing tagline, closing the file on every path. A failing write raises a
TranslationError and leaves the partial (here: truncated-at-open) artifact
in place; a failing source read is delegated to _process_output_file, which
removes the partial artifact. -/
def _generate_python_file_from_repy (fs : FS) (oracle : IOOracle) (cwd : Path) (now : Int)
    (repyfilename generatedfilename : Path) (shared_mycontext : Bool)
    (callfunc : String) (callargs : List String) : Except TError Unit × FS :=
  let gdir := pyDirname generatedfilename
  let fs1 := if gdir ≠ "" && !(fs.dirs gdir) then fs.addDir gdir else fs
  if oracle.openOutFails then
    (Except.error (TError.translationError
      ("Cannot open file for translation \x27" ++ repyfilename ++ "\x27: IOError")), fs1)
  else
    let hdr := headerLines cwd repyfilename shared_mycontext callfunc callargs
    if oracle.writeFails then
      (Except.error (TError.translationError
        ("Error translating file " ++ repyfilename ++ ": IOError")),
       fs1.setFile generatedfilename (some { lines := [], mtime := now }))
    else
      match _process_output_file fs1 oracle repyfilename generatedfilename hdr now with
      | (Except.error e, fs2) => (Except.error e, fs2)
      | (Except.ok body, fs2) =>
        (Except.ok (),
         fs2.setFile generatedfilename
           (some { lines := hdr ++ body ++
                     ["", TRANSLATION_TAGLINE ++ " " ++ abspath cwd repyfilename],
                   mtime := now }))

/-- Process-wide configuration read by translate: the Python path and the
_importcachedir override. -/
structure Config where
  syspath : List Path
  importcachedir : Option Path

/-- The destination directory translate actually writes to: the
_importcachedir override when set, the default location otherwise. -/
def effectiveDestdir (cfg : Config) (destdir0 : Path) : Path :=
  match cfg.importcachedir with
  | some d => d
  | none => destdir0

/-- The generated artifact path used by translate: module name derived from
the basename with the host extension appended, under the destination
directory. -/
def artifactPath (cfg : Config) (destdir0 : Path) (filename : String) : Path :=
  joinPath (effectiveDestdir cfg destdir0) (_get_module_name (pyBasename filename) ++ ".py")

/-- The tail of translate after the source has been resolved: default the
callargs, compute the module and artifact names, apply the cache-directory
override, and regenerate when forced or when the staleness check says so. -/
def translateCommon (fs : FS) (cfg : Config) (cwd : Path) (now : Int) (oracle : IOOracle)
    (filename filenamewithpath destdir0 : Path) (shared_mycontext : Bool)
    (callfunc : String) (callargs : Option (List String)) (force_overwrite : Bool) :
    Except TError String × FS :=
  if force_overwrite then
    match _generate_python_file_from_repy fs oracle cwd now filenamewithpath
        (artifactPath cfg destdir0 filename) shared_mycontext callfunc (callargs.getD []) with
    | (Except.error e, fs2) => (Except.error e, fs2)
    | (Except.ok _, fs2) => (Except.ok (_get_module_name (pyBasename filename)), fs2)
  else
    match (_translation_is_needed fs cwd filenamewithpath
        (artifactPath cfg destdir0 filename)).1 with
    | Except.error e => (Except.error e, fs)
    | Except.ok true =>
      match _generate_python_file_from_repy fs oracle cwd now filenamewithpath
          (artifactPath cfg destdir0 filename) shared_mycontext callfunc (callargs.getD []) with
      | (Except.error e, fs2) => (Except.error e, fs2)
      | (Except.ok _, fs2) => (Except.ok (_get_module_name (pyBasename filename)), fs2)
    | Except.ok false => (Except.ok (_get_module_name (pyBasename filename)), fs)

/-- translate: resolve the source file (explicit path when the name contains
a separator, otherwise first hit on the Python path), pick the default
output directory (first search-path entry in the explicit branch, the
matched entry in the scan branch), and hand over to the common tail. -/
def translate (fs : FS) (cfg : Config) (cwd : Path) (now : Int) (oracle : IOOracle)
    (filename : String) (shared_mycontext : Bool) (callfunc : String)
    (callargs : Option (List String)) (force_overwrite : Bool) :
    Except TError String × FS :=
  if filename ≠ pyBasename filename then
    if !(fs.dirs (abspath cwd (pyDirname filename))) then
      (Except.error (TError.valueError
        ("In repyhelper, the directory \x27" ++ abspath cwd (pyDirname filename) ++
         "\x27 does not exist for file \x27" ++ filename ++ "\x27")), fs)
    else if (fs.files filename).isNone then
      (Except.error (TError.valueError
        ("In repyhelper, the file \x27" ++ filename ++ "\x27 does not exist.")), fs)
    else
      translateCommon fs cfg cwd now oracle filename filename (cfg.syspath.headD "")
        shared_mycontext callfunc callargs force_overwrite
  else
    match cfg.syspath.find? (fun pathdir => (fs.files (joinPath pathdir filename)).isSome) with
    | none =>
      (Except.error (TError.valueError
        ("File " ++ filename ++ " does not exist in the Python path.")), fs)
    | some filedir =>
      translateCommon fs cfg cwd now oracle filename (joinPath filedir filename) filedir
        shared_mycontext callfunc callargs force_overwrite

/-- A heap of Python dictionaries, for reasoning about identity of the
mycontext mapping: addresses below size are allocated; each holds an
association list. -/
structure Heap where
  size : Nat
  store : Nat → List (String × String)

/-- Allocate a fresh dictionary, returning its address. -/
def Heap.alloc (h : Heap) (d : List (String × String)) : Nat × Heap :=
  (h.size,
   { size := h.size + 1,
     store := fun i => if i = h.size then d else h.store i })

/-- Write a key into the dictionary at an address. -/
def Heap.writeKey (h : Heap) (r : Nat) (k v : String) : Heap :=
  { h with store := fun i => if i = r then (k, v) :: h.store i else h.store i }

/-- Association-list lookup used to read a dictionary key. -/
def dictLookup : List (String × String) → String → Option String
  | [], _ => none
  | (k, v) :: rest, key => if k = key then some v else dictLookup rest key

/-- Read a key from the dictionary at an address. -/
def Heap.readKey (h : Heap) (r : Nat) (k : String) : Option String :=
  dictLookup (h.store r) k

/-- Modelled from the spec: executing the mycontext binding line that
_generate_python_file_from_repy emits into the artifact. With sharing the
line calls get_shared_context, so the binding receives the address of the
process-wide singleton and the heap is untouched; without sharing the line
is a dictionary display, allocating a fresh empty dictionary. -/
def execMycontextBinding (st : RHState) (h : Heap) (shared_mycontext : Bool) :
    Nat × Heap :=
  if shared_mycontext then (get_shared_context st, h) else h.alloc []

/-- The fixed exclusion set used when injecting module members into the
caller namespace. -/
def GLOBAL_VARS_BLACKLIST : List String :=
  ["mycontext", "callfunc", "callargs", "repyhelper"]

/-- A top-level namespace, mapping names to values of an opaque value
type. -/
def Globals (α : Type) : Type :=
  String → Option α

/-- One iteration of the member-injection loop: skip names led by an
underscore, skip blacklisted names, skip names already bound when
preserve_globals is set, otherwise bind the member into the namespace. -/
def insertMemberStep {α : Type} (preserve_globals : Bool)
    (g : Globals α) (nd : String × α) : Globals α :=
  if pyStartswith nd.1 "_" then g
  else if nd.1 ∈ GLOBAL_VARS_BLACKLIST then g
  else if (g nd.1).isSome && preserve_globals then g
  else fun k => if k = nd.1 then some nd.2 else g k

/-- _import_file_contents_to_caller_namespace: fold the injection step over
the imported module members (inspect.getmembers yields each name once). -/
def _import_file_contents_to_caller_namespace {α : Type} (members : List (String × α))
    (caller_globals : Globals α) (preserve_globals : Bool) : Globals α :=
  members.foldl (insertMemberStep preserve_globals) caller_globals

/-! Concrete fixtures used by closed evaluation theorems and witnesses. -/

/-- A filesystem with one repy source under the directory /w. -/
def exFS0 : FS :=
  { files := fun p =>
      if p = "/w/foo.repy" then
        some { lines := ["x = 1", "include bar.repy"], mtime := 5 }
      else
        none,
    dirs := fun p => p = "/w" }

/-- Search path containing only /w, no cache-directory override. -/
def exCfg : Config :=
  { syspath := ["/w"], importcachedir := none }

/-- The filesystem after a first translate call at time 10: the artifact
/w/foo_repy.py now holds exactly what the generator wrote. -/
def exFS1 : FS :=
  (translate exFS0 exCfg "/w" 10 IOOracle.clean "foo.repy" true "import" none false).2

/-- The same source, but a hand-written (foreign) file already sits at the
artifact path. -/
def exForeignFS : FS :=
  { files := fun p =>
      if p = "/w/foo.repy" then
        some { lines := ["x = 1"], mtime := 5 }
      else if p = "/w/foo_repy.py" then
        some { lines := ["hello there"], mtime := 9 }
      else
        none,
    dirs := fun p => p = "/w" }

/-- An oracle whose only failure is an IOError raised while writing the
artifact body. -/
def writeFailOracle : IOOracle :=
  { openOutFails := false, writeFails := true, readSrcFails := false, removeFails := false }

/-- An oracle whose only failure is an IOError raised while reading the
source during generation. -/
def readFailOracle : IOOracle :=
  { openOutFails := false, writeFails := false, readSrcFails := true, removeFails := false }

/-- A filesystem whose only directory is the dot directory; the empty path
is not a directory. -/
def exDotFS : FS :=
  { files := fun _ => none, dirs := fun p => p = "." }

/-- A source reachable only through an explicit relative path sub/foo.repy,
whose directory resolves to /w/sub. -/
def exPathFS : FS :=
  { files := fun p => if p = "sub/foo.repy" then some { lines := ["a = 2"], mtime := 3 } else none,
    dirs := fun p => p = "/w/sub" ∨ p = "/w" }

/-- A filesystem holding the directory /w/sub but no files at all. -/
def exDirOnlyFS : FS :=
  { files := fun _ => none, dirs := fun p => p = "/w/sub" }

/-! Theorems settling the claims. -/

/-- C1: the claim says that for a well-formed artifact generated by the
system the staleness check returns false exactly when the source timestamp
is strictly earlier than the artifact timestamp, so a second translate call
on an unmodified source writes nothing. The code violates this: after the
system itself generates /w/foo_repy.py at time 10 from a source of time 5,
the check still answers regenerate, and a second translate call at time 20
rewrites the artifact (its modification time becomes 20). The cause is that
_translation_is_needed parses the embedded source path out of the first
line, which in the generated format is the encoding marker, yielding the
empty string instead of the absolute source path. -/
theorem c1_staleness_code_bug_eval :
    (exFS0.files "/w/foo.repy").map FileData.mtime = some 5 ∧
    (exFS1.files "/w/foo_repy.py").map FileData.mtime = some 10 ∧
    exFS1.files "/w/foo_repy.py" =
      some { lines := generatedContent "/w" "/w/foo.repy" ["x = 1", "include bar.repy"]
               true "import" [], mtime := 10 } ∧
    (_translation_is_needed exFS1 "/w" "/w/foo.repy" "/w/foo_repy.py").1 = Except.ok true ∧
    ((translate exFS1 exCfg "/w" 20 IOOracle.clean "foo.repy" true "import" none false).2.files
        "/w/foo_repy.py").map FileData.mtime = some 20 := by
  refine ⟨rfl, rfl, rfl, rfl, rfl⟩

/-- C3 counterexample: an IOError raised while writing the artifact (not
while reading the source) makes _generate_python_file_from_repy fail with a
TranslationError, yet the partially written artifact is still present at the
output path afterwards, so the claim that every I/O failure during
generation removes the partial artifact before the error propagates is
false. -/
theorem c3_write_failure_leaves_partial_artifact :
    (_generate_python_file_from_repy exFS0 writeFailOracle "/w" 10 "/w/foo.repy"
        "/w/foo_repy.py" true "import" []).1 =
      Except.error (TError.translationError "Error translating file /w/foo.repy: IOError") ∧
    ((_generate_python_file_from_repy exFS0 writeFailOracle "/w" 10 "/w/foo.repy"
        "/w/foo_repy.py" true "import" []).2.files "/w/foo_repy.py").isSome = true := by
  refine ⟨rfl, rfl⟩

/-- C3 amended: when generation fails with a TranslationError because the
source cannot be opened or read (the output file having been opened
successfully and no write failing), the partial artifact at the output path
has been removed before the error propagates, unless the removal itself
fails, in which case the removal error is swallowed and the TranslationError
is still raised with the partial artifact left behind. -/
theorem c3_read_failure_removes_partial_artifact (fs : FS) (oracle : IOOracle)
    (cwd : Path) (now : Int) (src gen : Path) (sh : Bool) (cf : String) (ca : List String)
    (hopen : oracle.openOutFails = false) (hwrite : oracle.writeFails = false)
    (hread : fs.files src = none ∨ oracle.readSrcFails = true) :
    (_generate_python_file_from_repy fs oracle cwd now src gen sh cf ca).1 =
      Except.error (TError.translationError ("Error opening " ++ src ++ ": IOError")) ∧
    (oracle.removeFails = false →
      (_generate_python_file_from_repy fs oracle cwd now src gen sh cf ca).2.files gen = none) ∧
    (oracle.removeFails = true →
      ((_generate_python_file_from_repy fs oracle cwd now src gen sh cf ca).2.files gen).isSome
        = true) := by
  unfold _generate_python_file_from_repy _process_output_file
  rw [hopen, hwrite]
  simp only [Bool.false_eq_true, if_false]
  rcases hread with hread | hread
  · by_cases hdir : (pyDirname gen ≠ "" && !(fs.dirs (pyDirname gen))) = true
    · rw [if_pos hdir]
      simp only [FS.addDir, hread]
      cases hrem : oracle.removeFails
      · simp [FS.setFile]
      · simp [FS.setFile]
    · rw [if_neg hdir]
      rw [hread]
      cases hrem : oracle.removeFails
      · simp [FS.setFile]
      · simp [FS.setFile]
  · by_cases hdir : (pyDirname gen ≠ "" && !(fs.dirs (pyDirname gen))) = true
    · rw [if_pos hdir]
      rw [hread]
      rcases hsrc : (FS.addDir fs (pyDirname gen)).files src with _ | r
      · cases hrem : oracle.removeFails
        · simp [FS.setFile]
        · simp [FS.setFile]
      · cases hrem : oracle.removeFails
        · simp [FS.setFile]
        · simp [FS.setFile]
    · rw [if_neg hdir]
      rw [hread]
      rcases hsrc : fs.files src with _ | r
      · cases hrem : oracle.removeFails
        · simp [FS.setFile]
        · simp [FS.setFile]
      · cases hrem : oracle.removeFails
        · simp [FS.setFile]
        · simp [FS.setFile]

/-- C3 witness: the amended theorem applied to the concrete source under /w
with a failing source read, showing the error and the removed artifact. -/
theorem c3_read_failure_removes_partial_artifact_witness :
    (_generate_python_file_from_repy exFS0 readFailOracle "/w" 10 "/w/foo.repy"
        "/w/foo_repy.py" true "import" []).1 =
      Except.error (TError.translationError "Error opening /w/foo.repy: IOError") ∧
    (_generate_python_file_from_repy exFS0 readFailOracle "/w" 10 "/w/foo.repy"
        "/w/foo_repy.py" true "import" []).2.files "/w/foo_repy.py" = none := by
  have h := c3_read_failure_removes_partial_artifact exFS0 readFailOracle "/w" 10
    "/w/foo.repy" "/w/foo_repy.py" true "import" [] rfl rfl (Or.inr rfl)
  exact ⟨h.1, h.2.1 rfl⟩

/-- C9 counterexample: with a filesystem in which the empty path is not a
directory and a search path that does not contain the empty string,
set_importcachedir applied to the empty string succeeds and sets the
override to the dot directory, although the claim requires an error whenever
the argument names a path that is not an existing directory or is not an
entry of the search path. The code first normalizes the empty string to the
dot directory and validates only the normalized value. -/
theorem c9_empty_string_cachedir_counterexample :
    set_importcachedir exDotFS ["."] (PyArg.pyStr "") = Except.ok (some ".") ∧
    exDotFS.dirs "" = false ∧
    "" ∉ (["."] : List Path) := by
  refine ⟨rfl, rfl, by decide⟩

/-- C9 amended: set_importcachedir first normalizes an empty string argument
to the dot directory; it raises an error whenever the argument is neither
None nor a string, or the normalized path is not an existing directory, or
the normalized path is not an entry of the search path; only when all
validations pass is the override set to the normalized path, and None clears
the override. set_shared_context raises an error exactly when its argument
is None, and otherwise replaces the shared context. -/
theorem c9_config_validation_amended (fs : FS) (syspath : List Path) (s : String)
    (st : RHState) (c : Nat) :
    (set_importcachedir fs syspath PyArg.pyNone = Except.ok none) ∧
    (set_importcachedir fs syspath PyArg.pyOther =
      Except.error (TError.typeError "Type of newimportcachedir is not a string")) ∧
    (fs.dirs (if s = "" then "." else s) = false →
      set_importcachedir fs syspath (PyArg.pyStr s) =
        Except.error (TError.typeError
          ("Path given for newimportcachedir \x27" ++ (if s = "" then "." else s) ++
           "\x27 is not a directory"))) ∧
    (fs.dirs (if s = "" then "." else s) = true →
      (if s = "" then "." else s) ∉ syspath →
      set_importcachedir fs syspath (PyArg.pyStr s) =
        Except.error (TError.valueError
          ("The import cache dir \x27" ++ (if s = "" then "." else s) ++
           "\x27 isn\x27t in the Python path"))) ∧
    (fs.dirs (if s = "" then "." else s) = true →
      (if s = "" then "." else s) ∈ syspath →
      set_importcachedir fs syspath (PyArg.pyStr s) =
        Except.ok (some (if s = "" then "." else s))) ∧
    (set_shared_context st none = Except.error (TError.typeError "Context can\x27t be none")) ∧
    (set_shared_context st (some c) = Except.ok { st with shared_context := c }) := by
  refine ⟨rfl, rfl, ?_, ?_, ?_, rfl, rfl⟩
  · intro hdir
    unfold set_importcachedir
    simp only [hdir]
    rfl
  · intro hdir hmem
    unfold set_importcachedir
    simp only [hdir, hmem]
    simp
  · intro hdir hmem
    unfold set_importcachedir
    simp only [hdir, hmem]
    simp

/-- C9 witness: the amended theorem applied with the dot-directory
filesystem at the empty string, at a non-directory string, and at a valid
directory. -/
theorem c9_config_validation_amended_witness :
    set_importcachedir exDotFS ["."] (PyArg.pyStr "") = Except.ok (some ".") ∧
    set_importcachedir exDotFS ["."] (PyArg.pyStr "/nope") =
      Except.error (TError.typeError
        "Path given for newimportcachedir \x27/nope\x27 is not a directory") ∧
    set_importcachedir exDotFS ["/w"] (PyArg.pyStr ".") =
      Except.error (TError.valueError
        "The import cache dir \x27.\x27 isn\x27t in the Python path") := by
  refine ⟨?_, ?_, ?_⟩
  · exact (c9_config_validation_amended exDotFS ["."] "" ⟨0⟩ 0).2.2.2.2.1 rfl (by decide)
  · exact (c9_config_validation_amended exDotFS ["."] "/nope" ⟨0⟩ 0).2.2.1 rfl
  · exact (c9_config_validation_amended exDotFS ["/w"] "." ⟨0⟩ 0).2.2.2.1 rfl (by decide)

/-- C8: get_shared_context always returns the current module-level singleton
reference; the artifact header binds mycontext to a call on
get_shared_context exactly when sharing is enabled and to a fresh empty
dictionary display otherwise; executing the sharing binding yields the
singleton reference with the heap untouched, while the non-sharing binding
yields a freshly allocated empty dictionary distinct from the singleton; and
a mutation through the shared reference is visible to every holder of that
same reference. -/
theorem c8_shared_context_singleton (st : RHState) (h : Heap) (cwd src : Path)
    (cf : String) (ca : List String) :
    get_shared_context st = st.shared_context ∧
    (headerLines cwd src true cf ca).getD 13 "" =
      "mycontext = repyhelper.get_shared_context()" ∧
    (headerLines cwd src false cf ca).getD 13 "" = "mycontext = \x7b\x7d" ∧
    execMycontextBinding st h true = (get_shared_context st, h) ∧
    ((execMycontextBinding st h false).2).store (execMycontextBinding st h false).1 = [] ∧
    (st.shared_context < h.size → (execMycontextBinding st h false).1 ≠ st.shared_context) ∧
    (∀ k v : String,
      Heap.readKey (Heap.writeKey h (get_shared_context st) k v) (get_shared_context st) k =
        some v) := by
  refine ⟨rfl, rfl, rfl, rfl, ?_, ?_, ?_⟩
  · simp [execMycontextBinding, Heap.alloc]
  · intro hlt
    simp only [execMycontextBinding, Heap.alloc, if_neg (Bool.false_ne_true)]
    exact fun heq => absurd (heq ▸ hlt) (lt_irrefl h.size)
  · intro k v
    simp [Heap.readKey, Heap.writeKey, dictLookup]

/-- C8 witness: the theorem applied to a singleton at address 0 in a
one-cell heap, exhibiting the fresh non-shared dictionary at a distinct
address and the visibility of a mutation through the shared reference. -/
theorem c8_shared_context_singleton_witness :
    (execMycontextBinding ⟨0⟩ ⟨1, fun _ => []⟩ false).1 ≠ 0 ∧
    Heap.readKey (Heap.writeKey ⟨1, fun _ => []⟩ (get_shared_context ⟨0⟩) "k" "v")
      (get_shared_context ⟨0⟩) "k" = some "v" := by
  have h := c8_shared_context_singleton ⟨0⟩ ⟨1, fun _ => []⟩ "/w" "/w/foo.repy" "import" []
  exact ⟨h.2.2.2.2.2.1 (by decide), h.2.2.2.2.2.2 "k" "v"⟩

/-- The injection step never changes a binding other than the one for the
member being processed. -/
theorem insertMemberStep_ne {α : Type} (p : Bool) (g : Globals α) (nd : String × α)
    (n : String) (hne : n ≠ nd.1) : insertMemberStep p g nd n = g n := by
  unfold insertMemberStep
  by_cases h1 : pyStartswith nd.1 "_" = true
  · rw [if_pos h1]
  · rw [if_neg h1]
    by_cases h2 : nd.1 ∈ GLOBAL_VARS_BLACKLIST
    · rw [if_pos h2]
    · rw [if_neg h2]
      by_cases h3 : ((g nd.1).isSome && p) = true
      · rw [if_pos h3]
      · rw [if_neg h3]
        simp [hne]

/-- Folding the injection step over members none of which carry a name
leaves that name's binding unchanged. -/
theorem import_not_mem {α : Type} :
    ∀ (members : List (String × α)) (g : Globals α) (p : Bool) (n : String),
    n ∉ members.map Prod.fst →
    _import_file_contents_to_caller_namespace members g p n = g n := by
  intro members
  induction members with
  | nil => intro g p n _; rfl
  | cons m rest ih =>
    intro g p n hn
    simp only [List.map_cons, List.mem_cons, not_or] at hn
    have step : _import_file_contents_to_caller_namespace (m :: rest) g p =
        _import_file_contents_to_caller_namespace rest (insertMemberStep p g m) p := rfl
    rw [step, ih _ p n hn.2, insertMemberStep_ne p g m n hn.1]

/-- Characterization of the injected binding for a member of the module,
assuming member names are pairwise distinct, as they are for the member
enumeration of a Python module. -/
theorem import_mem_char {α : Type} :
    ∀ (members : List (String × α)) (g : Globals α) (p : Bool) (n : String) (v : α),
    (members.map Prod.fst).Nodup → (n, v) ∈ members →
    _import_file_contents_to_caller_namespace members g p n =
      (if pyStartswith n "_" then g n
       else if n ∈ GLOBAL_VARS_BLACKLIST then g n
       else if (g n).isSome && p then g n
       else some v) := by
  intro members
  induction members with
  | nil => intro g p n v _ hmem; exact absurd hmem (List.not_mem_nil _)
  | cons m rest ih =>
    intro g p n v hnodup hmem
    simp only [List.map_cons, List.nodup_cons] at hnodup
    have step : _import_file_contents_to_caller_namespace (m :: rest) g p =
        _import_file_contents_to_caller_namespace rest (insertMemberStep p g m) p := rfl
    rcases List.mem_cons.mp hmem with heq | hrest
    · have hn : n ∉ rest.map Prod.fst := by
        rw [← heq] at hnodup
        exact hnodup.1
      rw [step, import_not_mem rest _ p n hn, ← heq]
      unfold insertMemberStep
      by_cases h1 : pyStartswith n "_" = true
      · rw [if_pos h1, if_pos h1]
      · rw [if_neg h1, if_neg h1]
        by_cases h2 : n ∈ GLOBAL_VARS_BLACKLIST
        · rw [if_pos h2, if_pos h2]
        · rw [if_neg h2, if_neg h2]
          by_cases h3 : ((g n).isSome && p) = true
          · rw [if_pos h3, if_pos h3]
          · rw [if_neg h3, if_neg h3]
            simp
    · have hne : n ≠ m.1 := by
        intro hcontra
        exact hnodup.1 (hcontra ▸ (List.mem_map.mpr ⟨(n, v), hrest, rfl⟩))
      have hg' : insertMemberStep p g m n = g n := insertMemberStep_ne p g m n hne
      rw [step, ih _ p n v hnodup.2 hrest, hg']

/-- C7: merging module members into the caller namespace never injects a
name led by an underscore nor a name of the fixed exclusion set; every other
exported name is bound into the caller namespace, overwriting an existing
binding unless preserve_globals is set, in which case an existing binding
survives and the module value is skipped. -/
theorem c7_namespace_merge_rules {α : Type} (members : List (String × α))
    (g : Globals α) (preserve_globals : Bool) (n : String) (v : α)
    (hnodup : (members.map Prod.fst).Nodup) (hmem : (n, v) ∈ members) :
    ((pyStartswith n "_" = true ∨ n ∈ GLOBAL_VARS_BLACKLIST) →
      _import_file_contents_to_caller_namespace members g preserve_globals n = g n) ∧
    (pyStartswith n "_" = false → n ∉ GLOBAL_VARS_BLACKLIST →
      _import_file_contents_to_caller_namespace members g preserve_globals n =
        (if (g n).isSome && preserve_globals then g n else some v)) := by
  have hchar := import_mem_char members g preserve_globals n v hnodup hmem
  constructor
  · intro hskip
    rw [hchar]
    rcases hskip with h1 | h2
    · rw [if_pos h1]
    · by_cases h1 : pyStartswith n "_" = true
      · rw [if_pos h1]
      · rw [if_neg h1, if_pos h2]
  · intro h1 h2
    rw [hchar, if_neg (by simp [h1]), if_neg h2]

/-- C7 witness: merging members holding a private name, a blacklisted name,
a colliding ordinary name and a fresh name into a caller namespace that
already binds the colliding name, with and without preservation. -/
theorem c7_namespace_merge_rules_witness :
    (let members : List (String × Nat) := [("_hidden", 1), ("mycontext", 2), ("x", 3), ("y", 4)]
     let g : Globals Nat := fun k => if k = "x" then some 99 else none
     _import_file_contents_to_caller_namespace members g false "_hidden" = none ∧
     _import_file_contents_to_caller_namespace members g false "mycontext" = none ∧
     _import_file_contents_to_caller_namespace members g false "x" = some 3 ∧
     _import_file_contents_to_caller_namespace members g true "x" = some 99 ∧
     _import_file_contents_to_caller_namespace members g true "y" = some 4) := by
  intro members g
  have hnodup : (members.map Prod.fst).Nodup := by decide
  have h1 := (c7_namespace_merge_rules members g false "_hidden" 1 hnodup
    (by simp [members])).1 (Or.inl (by decide))
  have h2 := (c7_namespace_merge_rules members g false "mycontext" 2 hnodup
    (by simp [members])).1 (Or.inr (by decide))
  have h3 := (c7_namespace_merge_rules members g false "x" 3 hnodup
    (by simp [members])).2 (by decide) (by decide)
  have h4 := (c7_namespace_merge_rules members g true "x" 3 hnodup
    (by simp [members])).2 (by decide) (by decide)
  have h5 := (c7_namespace_merge_rules members g true "y" 4 hnodup
    (by simp [members])).2 (by decide) (by decide)
  refine ⟨?_, ?_, ?_, ?_, ?_⟩
  · rw [h1]; rfl
  · rw [h2]; rfl
  · rw [h3]; rfl
  · rw [h4]; rfl
  · rw [h5]; rfl

/-- C10: the staleness check is read-only. Whatever it returns or raises,
the trace of filesystem operations it performs consists solely of stat and
read operations, and replaying that trace against the filesystem leaves it
unchanged, so neither the source nor a pre-existing candidate artifact is
modified, including when the artifact is rejected as foreign. -/
theorem c10_staleness_check_readonly (fs : FS) (cwd repyfilename generatedfile : Path) :
    applyOps fs (_translation_is_needed fs cwd repyfilename generatedfile).2 = fs ∧
    ((_translation_is_needed fs cwd repyfilename generatedfile).2.all FSOp.readonly) = true := by
  unfold _translation_is_needed
  rcases hr : fs.files repyfilename with _ | r
  · exact ⟨rfl, rfl⟩
  · rcases hg : fs.files generatedfile with _ | g
    · exact ⟨rfl, rfl⟩
    · simp only
      split
      · exact ⟨rfl, rfl⟩
      · split
        · exact ⟨rfl, rfl⟩
        · split
          · exact ⟨rfl, rfl⟩
          · split
            · exact ⟨rfl, rfl⟩
            · exact ⟨rfl, rfl⟩

/-- The last element of a nonempty list does not depend on the default. -/
theorem getLastD_indep {α : Type} (l : List α) (h : l ≠ []) (d1 d2 : α) :
    l.getLastD d1 = l.getLastD d2 := by
  cases l with
  | nil => exact absurd rfl h
  | cons a t => rw [List.getLastD_cons, List.getLastD_cons]

/-- Dropping fewer elements than the length preserves the last element. -/
theorem getLastD_drop {α : Type} :
    ∀ (n : Nat) (l : List α) (d : α), n < l.length → (l.drop n).getLastD d = l.getLastD d := by
  intro n
  induction n with
  | zero => intro l d _; rfl
  | succ m ih =>
    intro l d hlt
    cases l with
    | nil => simp at hlt
    | cons a t =>
      have hm : m < t.length := by simpa using hlt
      have ht : t ≠ [] := by
        intro hc
        rw [hc] at hm
        simp at hm
      calc ((a :: t).drop (m + 1)).getLastD d = (t.drop m).getLastD d := rfl
        _ = t.getLastD d := ih t d hm
        _ = t.getLastD a := getLastD_indep t ht d a
        _ = (a :: t).getLastD d := (List.getLastD_cons d a t).symm

/-- C5: when the candidate artifact passes the generated-by-this-system
header check (new encoding-marker plus tagline format, or the legacy
tagline-first format) but its last line does not start with the tagline, the
staleness check answers regenerate without raising, so an artifact truncated
by an interrupted generation is silently regenerated. -/
theorem c5_truncated_artifact_regenerated (fs : FS) (cwd src gen : Path) (r g : FileData)
    (hr : fs.files src = some r) (hg : fs.files gen = some g)
    (hhdr : ((pyStartswith (pyRstrip (g.lines.headD "")) ENCODING_STRING &&
             pyStartswith (pyRstrip ((g.lines.drop 1).headD "")) TRANSLATION_TAGLINE) ||
            pyStartswith (pyRstrip (g.lines.headD "")) TRANSLATION_TAGLINE) = true)
    (hlen : 3 ≤ g.lines.length)
    (hlast : pyStartswith (g.lines.getLastD "") TRANSLATION_TAGLINE = false) :
    (_translation_is_needed fs cwd src gen).1 = Except.ok true := by
  have hlast2 : (g.lines.drop 2).getLastD "" = g.lines.getLastD "" :=
    getLastD_drop 2 g.lines "" (by omega)
  have hcond : ((!(pyStartswith (pyRstrip (g.lines.headD "")) ENCODING_STRING) ||
      !(pyStartswith (pyRstrip ((g.lines.drop 1).headD "")) TRANSLATION_TAGLINE)) &&
      !(pyStartswith (pyRstrip (g.lines.headD "")) TRANSLATION_TAGLINE)) = false := by
    cases h1 : pyStartswith (pyRstrip (g.lines.headD "")) ENCODING_STRING <;>
    cases h2 : pyStartswith (pyRstrip ((g.lines.drop 1).headD "")) TRANSLATION_TAGLINE <;>
    cases h3 : pyStartswith (pyRstrip (g.lines.headD "")) TRANSLATION_TAGLINE <;>
    simp_all
  unfold _translation_is_needed
  rw [hr, hg]
  simp only [hcond, Bool.false_eq_true, if_false, hlast2, hlast, Bool.not_false, if_true]

/-- C5 witness: a three-line artifact in the generated format whose last
line is a truncated body instead of the trailing tagline is regenerated. -/
theorem c5_truncated_artifact_regenerated_witness :
    (let fs : FS :=
      { files := fun p =>
          if p = "/w/foo.repy" then some { lines := ["x = 1"], mtime := 5 }
          else if p = "/w/foo_repy.py" then
            some { lines := [ENCODING_STRING,
                             TRANSLATION_TAGLINE ++ " /w/foo.repy",
                             "partial body"], mtime := 10 }
          else none,
        dirs := fun p => p = "/w" }
     (_translation_is_needed fs "/w" "/w/foo.repy" "/w/foo_repy.py").1 = Except.ok true) := by
  intro fs
  exact c5_truncated_artifact_regenerated fs "/w" "/w/foo.repy" "/w/foo_repy.py"
    { lines := ["x = 1"], mtime := 5 }
    { lines := [ENCODING_STRING, TRANSLATION_TAGLINE ++ " /w/foo.repy", "partial body"],
      mtime := 10 }
    rfl rfl (by decide) (by decide) (by decide)

/-- A successful generation under a clean oracle: the result is ok and the
filesystem changes exactly at the artifact path, which now holds the
generated content stamped with the current time. -/
theorem generate_clean_eq (fs : FS) (cwd : Path) (now : Int) (src gen : Path)
    (sh : Bool) (cf : String) (ca : List String) (r : FileData)
    (hsrc : fs.files src = some r) :
    (_generate_python_file_from_repy fs IOOracle.clean cwd now src gen sh cf ca).1 =
      Except.ok () ∧
    ∀ q, (_generate_python_file_from_repy fs IOOracle.clean cwd now src gen sh cf ca).2.files q =
      (if q = gen then
        some { lines := generatedContent cwd src r.lines sh cf ca, mtime := now }
      else fs.files q) := by
  unfold _generate_python_file_from_repy _process_output_file
  simp only [IOOracle.clean, Bool.false_eq_true, if_false]
  by_cases hdir : ((decide (pyDirname gen ≠ "") && !fs.dirs (pyDirname gen)) = true)
  · rw [if_pos hdir]
    simp only [FS.addDir, hsrc]
    exact ⟨trivial, fun q => rfl⟩
  · rw [if_neg hdir]
    simp only [hsrc]
    exact ⟨trivial, fun q => rfl⟩

/-- A candidate artifact matching neither the current two-line header
pattern nor the legacy tagline-first pattern makes the staleness check raise
a TranslationError. -/
theorem check_foreign_error (fs : FS) (cwd src gen : Path) (r g : FileData)
    (hr : fs.files src = some r) (hg : fs.files gen = some g)
    (hforeign : ((!(pyStartswith (pyRstrip (g.lines.headD "")) ENCODING_STRING) ||
        !(pyStartswith (pyRstrip ((g.lines.drop 1).headD "")) TRANSLATION_TAGLINE)) &&
        !(pyStartswith (pyRstrip (g.lines.headD "")) TRANSLATION_TAGLINE)) = true) :
    (_translation_is_needed fs cwd src gen).1 =
      Except.error (TError.translationError
        ("File name exists but wasn\x27t automatically generated: " ++ gen)) := by
  unfold _translation_is_needed
  rw [hr, hg]
  simp only [hforeign, if_true]

/-- When the name has no separator and the search-path scan first succeeds
at entry d, translate reduces to the common tail co-located with d. -/
theorem translate_scan_eq (fs : FS) (cfg : Config) (cwd : Path) (now : Int)
    (oracle : IOOracle) (filename d : Path) (sh : Bool) (cf : String)
    (ca : Option (List String)) (force : Bool)
    (hname : filename = pyBasename filename)
    (hfind : cfg.syspath.find?
      (fun pathdir => (fs.files (joinPath pathdir filename)).isSome) = some d) :
    translate fs cfg cwd now oracle filename sh cf ca force =
      translateCommon fs cfg cwd now oracle filename (joinPath d filename) d sh cf ca force := by
  unfold translate
  rw [if_neg (not_not_intro hname), hfind]

/-- Without a cache-directory override the destination is the default. -/
theorem effectiveDestdir_none (cfg : Config) (d0 : Path) (h : cfg.importcachedir = none) :
    effectiveDestdir cfg d0 = d0 := by
  unfold effectiveDestdir
  rw [h]

/-- C2: a pre-existing artifact whose first two lines match neither the
encoding-marker plus tagline pattern nor the legacy tagline-first pattern
makes the staleness check raise a TranslationError; translate therefore
fails and leaves the filesystem untouched instead of clobbering the foreign
file; with force_overwrite the check is skipped and the file is
overwritten with freshly generated content. -/
theorem c2_foreign_artifact_protected (fs : FS) (cfg : Config) (cwd : Path) (now : Int)
    (filename d : Path) (r g : FileData) (sh : Bool) (cf : String) (ca : Option (List String))
    (hname : filename = pyBasename filename)
    (hfind : cfg.syspath.find?
      (fun pathdir => (fs.files (joinPath pathdir filename)).isSome) = some d)
    (hcache : cfg.importcachedir = none)
    (hsrc : fs.files (joinPath d filename) = some r)
    (hgen : fs.files (joinPath d (_get_module_name (pyBasename filename) ++ ".py")) = some g)
    (hforeign : ((!(pyStartswith (pyRstrip (g.lines.headD "")) ENCODING_STRING) ||
        !(pyStartswith (pyRstrip ((g.lines.drop 1).headD "")) TRANSLATION_TAGLINE)) &&
        !(pyStartswith (pyRstrip (g.lines.headD "")) TRANSLATION_TAGLINE)) = true) :
    (_translation_is_needed fs cwd (joinPath d filename)
        (joinPath d (_get_module_name (pyBasename filename) ++ ".py"))).1 =
      Except.error (TError.translationError
        ("File name exists but wasn\x27t automatically generated: " ++
          joinPath d (_get_module_name (pyBasename filename) ++ ".py"))) ∧
    translate fs cfg cwd now IOOracle.clean filename sh cf ca false =
      (Except.error (TError.translationError
        ("File name exists but wasn\x27t automatically generated: " ++
          joinPath d (_get_module_name (pyBasename filename) ++ ".py"))), fs) ∧
    (translate fs cfg cwd now IOOracle.clean filename sh cf ca true).1 =
      Except.ok (_get_module_name (pyBasename filename)) ∧
    (translate fs cfg cwd now IOOracle.clean filename sh cf ca true).2.files
        (joinPath d (_get_module_name (pyBasename filename) ++ ".py")) =
      some { lines := generatedContent cwd (joinPath d filename) r.lines sh cf (ca.getD []),
             mtime := now } := by
  have hap : artifactPath cfg d filename =
      joinPath d (_get_module_name (pyBasename filename) ++ ".py") := by
    unfold artifactPath
    rw [effectiveDestdir_none cfg d hcache]
  have ha := check_foreign_error fs cwd (joinPath d filename)
    (joinPath d (_get_module_name (pyBasename filename) ++ ".py")) r g hsrc hgen hforeign
  have hgenclean := generate_clean_eq fs cwd now (joinPath d filename)
    (joinPath d (_get_module_name (pyBasename filename) ++ ".py")) sh cf (ca.getD []) r hsrc
  have hforce : translate fs cfg cwd now IOOracle.clean filename sh cf ca true =
      (Except.ok (_get_module_name (pyBasename filename)),
       (_generate_python_file_from_repy fs IOOracle.clean cwd now (joinPath d filename)
          (joinPath d (_get_module_name (pyBasename filename) ++ ".py")) sh cf
          (ca.getD [])).2) := by
    rw [translate_scan_eq fs cfg cwd now IOOracle.clean filename d sh cf ca true hname hfind]
    unfold translateCommon
    rw [if_pos rfl, hap]
    rcases hG : _generate_python_file_from_repy fs IOOracle.clean cwd now
        (joinPath d filename) (joinPath d (_get_module_name (pyBasename filename) ++ ".py"))
        sh cf (ca.getD []) with ⟨res, fs2⟩
    rw [hG] at hgenclean
    have hres : res = Except.ok () := hgenclean.1
    rw [hres]
  refine ⟨ha, ?_, ?_, ?_⟩
  · rw [translate_scan_eq fs cfg cwd now IOOracle.clean filename d sh cf ca false hname hfind]
    unfold translateCommon
    rw [if_neg Bool.false_ne_true, hap, ha]
  · rw [hforce]
  · rw [hforce]
    have hq := hgenclean.2 (joinPath d (_get_module_name (pyBasename filename) ++ ".py"))
    rw [if_pos rfl] at hq
    exact hq

/-- C2 witness: a hand-written two-word file at /w/foo_repy.py makes
translate fail and leave the filesystem unchanged, while force_overwrite
replaces it with the generated artifact. -/
theorem c2_foreign_artifact_protected_witness :
    translate exForeignFS exCfg "/w" 11 IOOracle.clean "foo.repy" true "import" none false =
      (Except.error (TError.translationError
        "File name exists but wasn\x27t automatically generated: /w/foo_repy.py"), exForeignFS) ∧
    (translate exForeignFS exCfg "/w" 11 IOOracle.clean "foo.repy" true "import" none true).2.files
        "/w/foo_repy.py" =
      some { lines := generatedContent "/w" "/w/foo.repy" ["x = 1"] true "import" [],
             mtime := 11 } := by
  have h := c2_foreign_artifact_protected exForeignFS exCfg "/w" 11 "foo.repy" "/w"
    { lines := ["x = 1"], mtime := 5 } { lines := ["hello there"], mtime := 9 }
    true "import" none rfl rfl rfl rfl rfl rfl
  exact ⟨h.2.1, h.2.2.2⟩

/-- The body translation is line for line: output length equals input
length. -/
theorem process_output_length : ∀ l : List String, (_process_output_lines l).length = l.length := by
  intro l
  induction l with
  | nil => rfl
  | cons a t ih => simp only [_process_output_lines, List.length_cons, ih]

/-- The translated body at index i is the include rewrite of the source line
at index i when that line starts with the include keyword and a space, and
the source line itself otherwise. -/
theorem process_output_getD : ∀ (l : List String) (i : Nat), i < l.length →
    (_process_output_lines l).getD i "" =
      (if pyStartswith (l.getD i "") "include " then
        "repyhelper.translate_and_import(\x27" ++
          pyStrip (pyDrop (l.getD i "") (pyLen "include ")) ++ "\x27)"
      else l.getD i "") := by
  intro l
  induction l with
  | nil => intro i h; simp at h
  | cons a t ih =>
    intro i h
    cases i with
    | zero => rfl
    | succ j => exact ih j (by simpa using h)

/-- The artifact header always occupies exactly 17 lines. -/
theorem headerLines_length (cwd repyfilename : Path) (sh : Bool) (cf : String)
    (ca : List String) : (headerLines cwd repyfilename sh cf ca).length = 17 := rfl

/-- C4: the generated artifact consists of the 17 header lines, one output
line per source line, and the 2 trailer lines, with no extra blank lines in
between; the output line for a source line beginning with the include
keyword and a space is the recursive translate_and_import call on the
stripped remainder of the line, and every other source line is copied
through unchanged at its own position. -/
theorem c4_body_translation_linewise (cwd repyfilename : Path) (srcLines : List String)
    (sh : Bool) (cf : String) (ca : List String) (i : Nat) :
    (generatedContent cwd repyfilename srcLines sh cf ca).length = 17 + srcLines.length + 2 ∧
    (i < srcLines.length →
      (generatedContent cwd repyfilename srcLines sh cf ca).getD (17 + i) "" =
        (if pyStartswith (srcLines.getD i "") "include " then
          "repyhelper.translate_and_import(\x27" ++
            pyStrip (pyDrop (srcLines.getD i "") (pyLen "include ")) ++ "\x27)"
        else srcLines.getD i "")) := by
  constructor
  · unfold generatedContent
    rw [List.length_append, List.length_append, headerLines_length, process_output_length]
    simp
  · intro hi
    unfold generatedContent
    rw [List.append_assoc]
    rw [List.getD_append_right _ _ _ _ (by rw [headerLines_length]; omega)]
    rw [headerLines_length]
    have h17 : 17 + i - 17 = i := by omega
    rw [h17]
    rw [List.getD_append _ _ _ _ (by rw [process_output_length]; omega)]
    exact process_output_getD srcLines i hi

/-- C4 witness: a two-line source whose second line is an include directive
produces a 21-line artifact whose body lines sit at offsets 17 and 18, the
plain line copied verbatim and the include rewritten to a recursive call. -/
theorem c4_body_translation_linewise_witness :
    (generatedContent "/w" "/w/foo.repy" ["x = 1", "include bar.repy"] true "import" []).length
      = 21 ∧
    (generatedContent "/w" "/w/foo.repy" ["x = 1", "include bar.repy"] true "import" []).getD 17 ""
      = "x = 1" ∧
    (generatedContent "/w" "/w/foo.repy" ["x = 1", "include bar.repy"] true "import" []).getD 18 ""
      = "repyhelper.translate_and_import(\x27bar.repy\x27)" := by
  have h0 := c4_body_translation_linewise "/w" "/w/foo.repy" ["x = 1", "include bar.repy"]
    true "import" [] 0
  have h1 := c4_body_translation_linewise "/w" "/w/foo.repy" ["x = 1", "include bar.repy"]
    true "import" [] 1
  refine ⟨h0.1, ?_, ?_⟩
  · rw [h0.2 (by decide)]
    rfl
  · rw [h1.2 (by decide)]
    rfl

/-- C6: in translate, a filename containing a separator is used as an
explicit path, with a ValueError when its resolved directory or the file
itself does not exist, and the artifact is written under the first
search-path entry by default; a plain filename is resolved by scanning the
search path in order, with a ValueError when no entry contains it, and the
artifact is co-located with the matched entry by default; in both branches
the cache-directory override, when set, replaces the default output
directory. -/
theorem c6_translate_resolution (fs : FS) (cfg : Config) (cwd : Path) (now : Int) (filename : String)
    (sh : Bool) (cf : String) (ca : Option (List String)) (force : Bool) (d0 dd : Path) :
    (filename ≠ pyBasename filename →
      fs.dirs (abspath cwd (pyDirname filename)) = false →
      translate fs cfg cwd now IOOracle.clean filename sh cf ca force =
        (Except.error (TError.valueError
          ("In repyhelper, the directory \x27" ++ abspath cwd (pyDirname filename) ++
           "\x27 does not exist for file \x27" ++ filename ++ "\x27")), fs)) ∧
    (filename ≠ pyBasename filename →
      fs.dirs (abspath cwd (pyDirname filename)) = true →
      fs.files filename = none →
      translate fs cfg cwd now IOOracle.clean filename sh cf ca force =
        (Except.error (TError.valueError
          ("In repyhelper, the file \x27" ++ filename ++ "\x27 does not exist.")), fs)) ∧
    (filename = pyBasename filename →
      cfg.syspath.find? (fun pathdir => (fs.files (joinPath pathdir filename)).isSome) = none →
      translate fs cfg cwd now IOOracle.clean filename sh cf ca force =
        (Except.error (TError.valueError
          ("File " ++ filename ++ " does not exist in the Python path.")), fs)) ∧
    (cfg.importcachedir = some dd → effectiveDestdir cfg d0 = dd) ∧
    (cfg.importcachedir = none → effectiveDestdir cfg d0 = d0) ∧
    (∀ r : FileData, filename ≠ pyBasename filename →
      fs.dirs (abspath cwd (pyDirname filename)) = true →
      fs.files filename = some r →
      (translate fs cfg cwd now IOOracle.clean filename sh cf ca true).1 =
        Except.ok (_get_module_name (pyBasename filename)) ∧
      (translate fs cfg cwd now IOOracle.clean filename sh cf ca true).2.files
          (joinPath (effectiveDestdir cfg (cfg.syspath.headD ""))
            (_get_module_name (pyBasename filename) ++ ".py")) =
        some { lines := generatedContent cwd filename r.lines sh cf (ca.getD []),
               mtime := now }) ∧
    (∀ (d : Path) (r : FileData), filename = pyBasename filename →
      cfg.syspath.find? (fun pathdir => (fs.files (joinPath pathdir filename)).isSome) = some d →
      fs.files (joinPath d filename) = some r →
      (translate fs cfg cwd now IOOracle.clean filename sh cf ca true).1 =
        Except.ok (_get_module_name (pyBasename filename)) ∧
      (translate fs cfg cwd now IOOracle.clean filename sh cf ca true).2.files
          (joinPath (effectiveDestdir cfg d) (_get_module_name (pyBasename filename) ++ ".py")) =
        some { lines := generatedContent cwd (joinPath d filename) r.lines sh cf (ca.getD []),
               mtime := now }) := by
  refine ⟨?_, ?_, ?_, ?_, ?_, ?_, ?_⟩
  · intro hne hdir
    unfold translate
    rw [if_pos hne, hdir]
    rfl
  · intro hne hdir hfile
    unfold translate
    rw [if_pos hne, hdir, hfile]
    rfl
  · intro hname hfind
    unfold translate
    rw [if_neg (not_not_intro hname), hfind]
  · intro h
    unfold effectiveDestdir
    rw [h]
  · intro h
    unfold effectiveDestdir
    rw [h]
  · intro r hne hdir hfile
    have hgenclean := generate_clean_eq fs cwd now filename
      (artifactPath cfg (cfg.syspath.headD "") filename) sh cf (ca.getD []) r hfile
    have hforce : translate fs cfg cwd now IOOracle.clean filename sh cf ca true =
        (Except.ok (_get_module_name (pyBasename filename)),
         (_generate_python_file_from_repy fs IOOracle.clean cwd now filename
            (artifactPath cfg (cfg.syspath.headD "") filename) sh cf (ca.getD [])).2) := by
      unfold translate
      rw [if_pos hne, hdir, hfile]
      simp only [Option.isNone_some, Bool.false_eq_true, if_false]
      unfold translateCommon
      rw [if_pos rfl]
      rcases hG : _generate_python_file_from_repy fs IOOracle.clean cwd now filename
          (artifactPath cfg (cfg.syspath.headD "") filename) sh cf (ca.getD []) with ⟨res, fs2⟩
      rw [hG] at hgenclean
      have hres : res = Except.ok () := hgenclean.1
      rw [hres]
      rfl
    rw [hforce]
    refine ⟨rfl, ?_⟩
    have hq := hgenclean.2 (artifactPath cfg (cfg.syspath.headD "") filename)
    rw [if_pos rfl] at hq
    exact hq
  · intro d r hname hfind hsrc
    have hgenclean := generate_clean_eq fs cwd now (joinPath d filename)
      (artifactPath cfg d filename) sh cf (ca.getD []) r hsrc
    have hforce : translate fs cfg cwd now IOOracle.clean filename sh cf ca true =
        (Except.ok (_get_module_name (pyBasename filename)),
         (_generate_python_file_from_repy fs IOOracle.clean cwd now (joinPath d filename)
            (artifactPath cfg d filename) sh cf (ca.getD [])).2) := by
      rw [translate_scan_eq fs cfg cwd now IOOracle.clean filename d sh cf ca true hname hfind]
      unfold translateCommon
      rw [if_pos rfl]
      rcases hG : _generate_python_file_from_repy fs IOOracle.clean cwd now
          (joinPath d filename) (artifactPath cfg d filename) sh cf (ca.getD []) with ⟨res, fs2⟩
      rw [hG] at hgenclean
      have hres : res = Except.ok () := hgenclean.1
      rw [hres]
    rw [hforce]
    refine ⟨rfl, ?_⟩
    have hq := hgenclean.2 (artifactPath cfg d filename)
    rw [if_pos rfl] at hq
    exact hq

/-- C6 witness: the resolution rules of translate exercised on concrete
filesystems: missing explicit directory, missing explicit file, fruitless
search-path scan, the override replacing the default, and both successful
branches writing the artifact at their respective destination. -/
theorem c6_translate_resolution_witness :
    translate exDotFS exCfg "/w" 7 IOOracle.clean "sub/foo.repy" true "import" none false =
      (Except.error (TError.valueError
        ("In repyhelper, the directory \x27/w/sub\x27 does not exist for file " ++
         "\x27sub/foo.repy\x27")), exDotFS) ∧
    translate exDirOnlyFS exCfg "/w" 7 IOOracle.clean "sub/foo.repy" true "import" none false =
      (Except.error (TError.valueError
        "In repyhelper, the file \x27sub/foo.repy\x27 does not exist."), exDirOnlyFS) ∧
    translate exDotFS exCfg "/w" 7 IOOracle.clean "foo.repy" true "import" none false =
      (Except.error (TError.valueError
        "File foo.repy does not exist in the Python path."), exDotFS) ∧
    effectiveDestdir { syspath := ["/w"], importcachedir := some "/cache" } "/w" = "/cache" ∧
    effectiveDestdir exCfg "/w" = "/w" ∧
    (translate exPathFS exCfg "/w" 7 IOOracle.clean "sub/foo.repy" true "import" none true).2.files
        "/w/foo_repy.py" =
      some { lines := generatedContent "/w" "sub/foo.repy" ["a = 2"] true "import" [],
             mtime := 7 } ∧
    (translate exFS0 exCfg "/w" 7 IOOracle.clean "foo.repy" true "import" none true).2.files
        "/w/foo_repy.py" =
      some { lines := generatedContent "/w" "/w/foo.repy" ["x = 1", "include bar.repy"]
               true "import" [], mtime := 7 } := by
  have h1 := (c6_translate_resolution exDotFS exCfg "/w" 7 "sub/foo.repy" true "import" none
    false "/w" "/cache").1 (by decide) rfl
  have h2 := (c6_translate_resolution exDirOnlyFS exCfg "/w" 7 "sub/foo.repy" true "import" none
    false "/w" "/cache").2.1 (by decide) (by decide) rfl
  have h3 := (c6_translate_resolution exDotFS exCfg "/w" 7 "foo.repy" true "import" none
    false "/w" "/cache").2.2.1 rfl rfl
  have h4 := (c6_translate_resolution exDotFS { syspath := ["/w"], importcachedir := some "/cache" }
    "/w" 7 "x" true "import" none false "/w" "/cache").2.2.2.1 rfl
  have h5 := (c6_translate_resolution exDotFS exCfg "/w" 7 "x" true "import" none
    false "/w" "/cache").2.2.2.2.1 rfl
  have h6 := ((c6_translate_resolution exPathFS exCfg "/w" 7 "sub/foo.repy" true "import" none
    true "/w" "/cache").2.2.2.2.2.1 { lines := ["a = 2"], mtime := 3 }
    (by decide) (by decide) rfl).2
  have h7 := ((c6_translate_resolution exFS0 exCfg "/w" 7 "foo.repy" true "import" none
    true "/w" "/cache").2.2.2.2.2.2 "/w" { lines := ["x = 1", "include bar.repy"], mtime := 5 }
    rfl rfl rfl).2
  exact ⟨h1, h2, h3, h4, h5, h6, h7⟩

end Repyhelper

